import Mathlib

/-!
# Verification of the HLTV fantasy roster optimizer (`main.py`)

Shallow embedding of the Gurobi model built in `main.py`.  Python floats are
modelled as rationals (`ℚ`), Gurobi decision variables as rational-valued
functions, and the emitted constraint set as a predicate on assignments.
Python list indexing (which raises `IndexError` / `KeyError` out of range) is
modelled with `List`/guards where a claim depends on it.
-/

namespace HLTV

open Finset

/-- The input tables consumed by `main.py` (imported there from the `data`
module, which is external data):
* `numPlayers`, `numBoosters`, `numGames`, `numRoles` are the sizes
  `len(Players)`, `len(Boosters[0])`, `len(Games)`, `len(Roles[0])`
  that define the index sets `P`, `B`, `G`, `R`;
* `team p` is the stored team field `Players[p][1]`;
* `Price p` is `Price[p]`;
* `Rating0 p`, `Rating1 p` are `Rating[p][0]`, `Rating[p][1]`;
* `BoosterProb p b` is `Boosters[p][b][1]`;
* `RoleSmall p r`, `RoleBig p r` are `Roles[p][r][1]`, `Roles[p][r][2]`;
* `WP` is the team win-probability list `WP`, kept as a `List` because the
  code indexes it by `math.floor(p / 5)`, which can be out of range. -/
structure Instance where
  numPlayers : ℕ
  numBoosters : ℕ
  numGames : ℕ
  numRoles : ℕ
  team : ℕ → ℕ
  Price : ℕ → ℚ
  Rating0 : ℕ → ℚ
  Rating1 : ℕ → ℚ
  BoosterProb : ℕ → ℕ → ℚ
  RoleSmall : ℕ → ℕ → ℚ
  RoleBig : ℕ → ℕ → ℚ
  WP : List ℚ

/-- Rating weight `RAT = 0.2` from `main.py`. -/
def RAT : ℚ := 1 / 5

/-- Rating weight `R1W = 0.8` from `main.py`. -/
def R1W : ℚ := 4 / 5

/-- An assignment of values to the decision variables of the model:
`X p` is Selection, `Y p r` is RoleAssignment, `Z p b g` is
BoosterAssignment, `W p g` is SurvivalWeight.  Values are rationals; the
binary/interval domain restrictions are part of `feasible`. -/
structure Assignment where
  X : ℕ → ℚ
  Y : ℕ → ℕ → ℚ
  Z : ℕ → ℕ → ℕ → ℚ
  W : ℕ → ℕ → ℚ

/-- The win probability the code associates with player `p`: `WP[math.floor(p / 5)]`
(lines 99-100 and 165 of `main.py`).  Out-of-range indices (which raise
`IndexError` in Python, see `build`) are given the junk value `0`. -/
def wpAt (I : Instance) (p : ℕ) : ℚ := I.WP.getD (p / 5) 0

/-- The win probability of player `p`'s stored team: `WP` indexed by the team
field `Players[p][1]`.  This is what the spec calls "the win probability of
p's own team"; the code never computes it (it uses `wpAt`). -/
def storedTeamWP (I : Instance) (p : ℕ) : ℚ := I.WP.getD (I.team p) 0

/-- The objective expression set by `m.setObjective(...)` (lines 76-102 of
`main.py`), translated sum-for-sum:
expected rating points + expected booster points + expected role points
(small, big, minus non-trigger penalty) + expected win points - expected
loss points. -/
def objective (I : Instance) (a : Assignment) : ℚ :=
  (∑ p in range I.numPlayers, ∑ g in range I.numGames,
      a.X p * a.W p g * (((R1W * I.Rating0 p) + (RAT * I.Rating1 p)) - 1) * 50)
  + (∑ p in range I.numPlayers, ∑ g in range I.numGames, ∑ b in range I.numBoosters,
      a.Z p b g * a.W p g * I.BoosterProb p b * 5)
  + ((∑ p in range I.numPlayers, ∑ r in range I.numRoles, ∑ g in range I.numGames,
        a.Y p r * a.W p g * I.RoleSmall p r * 2)
     + (∑ p in range I.numPlayers, ∑ r in range I.numRoles, ∑ g in range I.numGames,
        a.Y p r * a.W p g * I.RoleBig p r * 5)
     - (∑ p in range I.numPlayers, ∑ r in range I.numRoles, ∑ g in range I.numGames,
        a.Y p r * a.W p g * (1 - I.RoleSmall p r - I.RoleBig p r) * 2))
  + (∑ p in range I.numPlayers, ∑ g in range I.numGames,
      a.X p * a.W p g * wpAt I p * 6)
  - (∑ p in range I.numPlayers, ∑ g in range I.numGames,
      a.X p * a.W p g * (1 - wpAt I p) * 3)

/-- The value the SurvivalWeight equalities pin `W p g` to: `1` at game `0`
and `WP[floor(p/5)]^(g+1)` for later games (lines 160-165 of `main.py`). -/
def survivalValue (I : Instance) (p g : ℕ) : ℚ :=
  if g = 0 then 1 else wpAt I p ^ (g + 1)

/-- The variable domains declared by `m.addVar`: `X`, `Y`, `Z` are
`GRB.BINARY`; `W` has `lb=0, ub=1` (a semicontinuous variable with lower
bound `0`, hence exactly the interval `[0,1]`). -/
def domains (I : Instance) (a : Assignment) : Prop :=
  (∀ p ∈ range I.numPlayers, a.X p = 0 ∨ a.X p = 1)
  ∧ (∀ p ∈ range I.numPlayers, ∀ r ∈ range I.numRoles, a.Y p r = 0 ∨ a.Y p r = 1)
  ∧ (∀ p ∈ range I.numPlayers, ∀ b ∈ range I.numBoosters, ∀ g ∈ range I.numGames,
      a.Z p b g = 0 ∨ a.Z p b g = 1)
  ∧ (∀ p ∈ range I.numPlayers, ∀ g ∈ range I.numGames,
      0 ≤ a.W p g ∧ a.W p g ≤ 1)

/-- The constraint list emitted by the builder, in source order
(lines 118-165 of `main.py`), conjoined with the variable domains:
1. team cap: for each team value occurring in the Players table, at most 2
   selected players with that stored team field;
2. budget `≤ 1000000`;
3. exactly `5` selected (an equality constraint on the sum);
4. each booster used at most once in total and at most once per game;
5. each player uses at most one booster per game;
6. each role used at most once; each player has at most one role;
7. linking `Z[p,b,g] ≤ X[p]` and `Y[p,r] ≤ X[p]`;
8. the hard-coded disqualification `X[27] == 0`;
9. the SurvivalWeight equalities `W[p,0] == 1` and
   `W[p,g] == WP[floor(p/5)]^(g+1)` for `g ≥ 1`. -/
def feasible (I : Instance) (a : Assignment) : Prop :=
  domains I a
  ∧ (∀ t ∈ (range I.numPlayers).image I.team,
      (∑ p in (range I.numPlayers).filter (fun p => I.team p = t), a.X p) ≤ 2)
  ∧ (∑ p in range I.numPlayers, a.X p * I.Price p) ≤ 1000000
  ∧ (∑ p in range I.numPlayers, a.X p) = 5
  ∧ (∀ b ∈ range I.numBoosters,
      (∑ p in range I.numPlayers, ∑ g in range I.numGames, a.Z p b g) ≤ 1)
  ∧ (∀ b ∈ range I.numBoosters, ∀ g ∈ range I.numGames,
      (∑ p in range I.numPlayers, a.Z p b g) ≤ 1)
  ∧ (∀ p ∈ range I.numPlayers, ∀ g ∈ range I.numGames,
      (∑ b in range I.numBoosters, a.Z p b g) ≤ 1)
  ∧ (∀ r ∈ range I.numRoles, (∑ p in range I.numPlayers, a.Y p r) ≤ 1)
  ∧ (∀ p ∈ range I.numPlayers, (∑ r in range I.numRoles, a.Y p r) ≤ 1)
  ∧ (∀ g ∈ range I.numGames, ∀ b ∈ range I.numBoosters, ∀ p ∈ range I.numPlayers,
      a.Z p b g ≤ a.X p)
  ∧ (∀ r ∈ range I.numRoles, ∀ p ∈ range I.numPlayers, a.Y p r ≤ a.X p)
  ∧ a.X 27 = 0
  ∧ (∀ p ∈ range I.numPlayers, ∀ g ∈ range I.numGames,
      (g = 0 → a.W p g = 1) ∧ (g ≠ 0 → a.W p g = wpAt I p ^ (g + 1)))

/-- The variable declarations, objective and constraint set the builder hands
to the solver, once construction has succeeded. -/
structure BuiltModel (I : Instance) where
  obj : Assignment → ℚ
  feas : Assignment → Prop

/-- Running the model-building code of `main.py` (lines 57-165) on the input
tables.  Construction is partial: the objective (line 99) and the
SurvivalWeight equalities (line 165) index `WP[math.floor(p / 5)]`, which
raises `IndexError` when `p / 5 ≥ len(WP)`, and line 158 evaluates `X[27]`,
which raises `KeyError` when the variable dictionary `X` has no key `27`,
i.e. when `len(Players) ≤ 27`.  Those two failure modes are the guards; on
success the result bundles the objective and the constraint set. -/
def build (I : Instance) : Option (BuiltModel I) :=
  if (∀ p ∈ range I.numPlayers, p / 5 < I.WP.length) ∧ 27 < I.numPlayers then
    some ⟨objective I, feasible I⟩
  else
    none

/-- How many times the report loop of `main.py` (lines 170-194) prints the
"no booster" line for player `p` in game `g`'s block: the loop visits `p`
only when `X[p] == 1`, then for each role `r` with `Y[p,r] == 1` prints the
"no booster" line exactly when `sum(Z[p,b,g] for b in B) == 0`. -/
def noBoosterLines (I : Instance) (a : Assignment) (g p : ℕ) : ℕ :=
  if a.X p = 1 then
    ∑ r in range I.numRoles,
      if a.Y p r = 1 ∧ (∑ b in range I.numBoosters, a.Z p b g) = 0 then 1 else 0
  else 0

/-- The objective with every occurrence of the SurvivalWeight variable
`W p g` replaced by the constant `survivalValue I p g` it is constrained to
equal: a linear expression over `X`, `Y`, `Z` alone. -/
def linearObjective (I : Instance) (a : Assignment) : ℚ :=
  (∑ p in range I.numPlayers, ∑ g in range I.numGames,
      a.X p * survivalValue I p g * (((R1W * I.Rating0 p) + (RAT * I.Rating1 p)) - 1) * 50)
  + (∑ p in range I.numPlayers, ∑ g in range I.numGames, ∑ b in range I.numBoosters,
      a.Z p b g * survivalValue I p g * I.BoosterProb p b * 5)
  + ((∑ p in range I.numPlayers, ∑ r in range I.numRoles, ∑ g in range I.numGames,
        a.Y p r * survivalValue I p g * I.RoleSmall p r * 2)
     + (∑ p in range I.numPlayers, ∑ r in range I.numRoles, ∑ g in range I.numGames,
        a.Y p r * survivalValue I p g * I.RoleBig p r * 5)
     - (∑ p in range I.numPlayers, ∑ r in range I.numRoles, ∑ g in range I.numGames,
        a.Y p r * survivalValue I p g * (1 - I.RoleSmall p r - I.RoleBig p r) * 2))
  + (∑ p in range I.numPlayers, ∑ g in range I.numGames,
      a.X p * survivalValue I p g * wpAt I p * 6)
  - (∑ p in range I.numPlayers, ∑ g in range I.numGames,
      a.X p * survivalValue I p g * (1 - wpAt I p) * 3)

/-- Pointwise sum of two assignments (used to test additivity of the
objective in all four variable families at once). -/
def addA (a b : Assignment) : Assignment :=
  ⟨fun p => a.X p + b.X p, fun p r => a.Y p r + b.Y p r,
   fun p q g => a.Z p q g + b.Z p q g, fun p g => a.W p g + b.W p g⟩

/-- The all-zero assignment. -/
def zeroA : Assignment := ⟨fun _ => 0, fun _ _ => 0, fun _ _ _ => 0, fun _ _ => 0⟩

/-- `c`-scaling of the `X`, `Y`, `Z` components of `a` added to `b`, with the
SurvivalWeight component of `a` kept: a linear combination inside the slice
of assignments sharing one fixed `W`. -/
def comboXYZ (c : ℚ) (a b : Assignment) : Assignment :=
  ⟨fun p => c * a.X p + b.X p, fun p r => c * a.Y p r + b.Y p r,
   fun p q g => c * a.Z p q g + b.Z p q g, a.W⟩

/-- A concrete well-formed input table set: 30 players in 6 teams of five
(stored team field agreeing with the positional derivation `p / 5`), one
booster, one game, one role, uniform prices and ratings, win probability
`1/2` for every team. -/
def inst0 : Instance where
  numPlayers := 30
  numBoosters := 1
  numGames := 1
  numRoles := 1
  team := fun p => p / 5
  Price := fun _ => 1
  Rating0 := fun _ => 1
  Rating1 := fun _ => 1
  BoosterProb := fun _ _ => 1 / 2
  RoleSmall := fun _ _ => 1 / 4
  RoleBig := fun _ _ => 1 / 4
  WP := [1/2, 1/2, 1/2, 1/2, 1/2, 1/2]

/-- A concrete assignment for `inst0`: players 0, 1, 5, 6, 10 selected
(teams 0, 0, 1, 1, 2), player 0 holds role 0, no boosters used, all
SurvivalWeights `1` (the single game is game 0). -/
def asg0 : Assignment where
  X := fun p => if p = 0 ∨ p = 1 ∨ p = 5 ∨ p = 6 ∨ p = 10 then 1 else 0
  Y := fun p r => if p = 0 ∧ r = 0 then 1 else 0
  Z := fun _ _ _ => 0
  W := fun _ _ => 1

/-- A minimal instance for probing the shape of the objective: one player,
one game, no boosters, no roles, rating giving the nonzero coefficient
`(0.8*2 + 0.2*0 - 1) * 50 = 30`, win probability `1/2`. -/
def instLin : Instance where
  numPlayers := 1
  numBoosters := 0
  numGames := 1
  numRoles := 0
  team := fun _ => 0
  Price := fun _ => 1
  Rating0 := fun _ => 2
  Rating1 := fun _ => 0
  BoosterProb := fun _ _ => 0
  RoleSmall := fun _ _ => 0
  RoleBig := fun _ _ => 0
  WP := [1/2]

/-- The assignment `X = 1, W = 1` (roles/boosters absent) for `instLin`. -/
def asgLin : Assignment where
  X := fun _ => 1
  Y := fun _ _ => 0
  Z := fun _ _ _ => 0
  W := fun _ _ => 1

/-- An instance in which a player's stored team field disagrees with the
positional derivation `p / 5`: player 0 is recorded on team 1, whose win
probability is `3/4`, while `WP[0 / 5] = WP[0] = 1/2`. -/
def instMix : Instance where
  numPlayers := 1
  numBoosters := 0
  numGames := 1
  numRoles := 0
  team := fun _ => 1
  Price := fun _ => 1
  Rating0 := fun _ => 1
  Rating1 := fun _ => 1
  BoosterProb := fun _ _ => 0
  RoleSmall := fun _ _ => 0
  RoleBig := fun _ _ => 0
  WP := [1/2, 3/4]

/-- A small but perfectly sensible input table set — 5 players on 5 distinct
teams, enough budget — on which the builder nonetheless crashes: `X[27]`
does not exist since `len(Players) = 5`. -/
def instSmall : Instance where
  numPlayers := 5
  numBoosters := 1
  numGames := 1
  numRoles := 1
  team := fun p => p
  Price := fun _ => 1
  Rating0 := fun _ => 1
  Rating1 := fun _ => 1
  BoosterProb := fun _ _ => 1 / 2
  RoleSmall := fun _ _ => 1 / 4
  RoleBig := fun _ _ => 1 / 4
  WP := [1/2, 1/2, 1/2, 1/2, 1/2]

section Helpers

variable {α : Type}

/-- A sum of `{0,1}`-valued terms counts the terms equal to `1`. -/
lemma sum_binary_eq_card (s : Finset α) (f : α → ℚ)
    (hf : ∀ p ∈ s, f p = 0 ∨ f p = 1) :
    ∑ p in s, f p = ((s.filter fun p => f p = 1).card : ℚ) := by
  rw [← Finset.sum_filter_add_sum_filter_not s (fun p => f p = 1)]
  have h1 : ∑ p in s.filter (fun p => f p = 1), f p
      = ((s.filter fun p => f p = 1).card : ℚ) := by
    rw [Finset.sum_congr rfl (fun p hp => (Finset.mem_filter.mp hp).2),
      Finset.sum_const, nsmul_eq_mul, mul_one]
  have h2 : ∑ p in s.filter (fun p => ¬ f p = 1), f p = 0 := by
    refine Finset.sum_eq_zero fun p hp => ?_
    rcases Finset.mem_filter.mp hp with ⟨hps, hne⟩
    rcases hf p hps with h | h
    · exact h
    · exact absurd h hne
  rw [h1, h2, add_zero]

/-- A bounded sum of `{0,1}`-valued terms bounds the count of `1`s. -/
lemma card_filter_le_of_sum_le (s : Finset α) (f : α → ℚ) (n : ℕ)
    (hf : ∀ p ∈ s, f p = 0 ∨ f p = 1) (h : ∑ p in s, f p ≤ (n : ℚ)) :
    (s.filter fun p => f p = 1).card ≤ n := by
  rw [sum_binary_eq_card s f hf] at h
  exact_mod_cast h

/-- An exact sum of `{0,1}`-valued terms fixes the count of `1`s. -/
lemma card_filter_eq_of_sum_eq (s : Finset α) (f : α → ℚ) (n : ℕ)
    (hf : ∀ p ∈ s, f p = 0 ∨ f p = 1) (h : ∑ p in s, f p = (n : ℚ)) :
    (s.filter fun p => f p = 1).card = n := by
  rw [sum_binary_eq_card s f hf] at h
  exact_mod_cast h

/-- Weighting by a `{0,1}`-valued factor restricts the sum to the `1`s. -/
lemma sum_mul_binary (s : Finset α) (f g : α → ℚ)
    (hf : ∀ p ∈ s, f p = 0 ∨ f p = 1) :
    ∑ p in s, f p * g p = ∑ p in s.filter (fun p => f p = 1), g p := by
  rw [← Finset.sum_filter_add_sum_filter_not s (fun p => f p = 1)
    (fun p => f p * g p)]
  have h1 : ∑ p in s.filter (fun p => f p = 1), f p * g p
      = ∑ p in s.filter (fun p => f p = 1), g p :=
    Finset.sum_congr rfl fun p hp => by
      rw [(Finset.mem_filter.mp hp).2, one_mul]
  have h2 : ∑ p in s.filter (fun p => ¬ f p = 1), f p * g p = 0 := by
    refine Finset.sum_eq_zero fun p hp => ?_
    rcases Finset.mem_filter.mp hp with ⟨hps, hne⟩
    rcases hf p hps with h | h
    · rw [h, zero_mul]
    · exact absurd h hne
  rw [h1, h2, add_zero]

end Helpers

/-- The concrete assignment `asg0` satisfies every constraint the builder
emits for `inst0`: a feasible solution used to witness the invariant
theorems. -/
lemma feas0 : feasible inst0 asg0 := by
  refine ⟨⟨?_, ?_, ?_, ?_⟩, ?_, ?_, ?_, ?_, ?_, ?_, ?_, ?_, ?_, ?_, ?_, ?_⟩
  · intro p _
    dsimp only [asg0]
    split
    · exact Or.inr rfl
    · exact Or.inl rfl
  · intro p _ r _
    dsimp only [asg0]
    split
    · exact Or.inr rfl
    · exact Or.inl rfl
  · intro p _ b _ g _
    exact Or.inl rfl
  · intro p _ g _
    constructor <;> norm_num [asg0]
  · rw [show (range inst0.numPlayers).image inst0.team = ({0,1,2,3,4,5} : Finset ℕ) from by decide]
    intro t ht
    fin_cases ht <;> simp [inst0, asg0, Finset.sum_filter, Finset.sum_range_succ] <;> decide
  · simp [inst0, asg0, Finset.sum_range_succ]
    decide
  · simp [inst0, asg0, Finset.sum_range_succ]
    rw [show (filter (fun x => x = 0 ∨ x = 1 ∨ x = 5 ∨ x = 6 ∨ x = 10) (range 30)).card = 5 from by decide]
    norm_num
  · intro b _
    simp [asg0]
  · intro b _ g _
    simp [asg0]
  · intro p _ g _
    simp [asg0]
  · intro r hr
    simp only [inst0, Finset.mem_range, Nat.lt_one_iff] at hr
    subst hr
    simp [asg0, Finset.sum_range_succ]
    norm_num [inst0]
  · intro p _
    simp only [inst0, Finset.sum_range_one]
    dsimp only [asg0]
    split <;> norm_num
  · intro g _ b _ p _
    dsimp only [asg0]
    split <;> norm_num
  · intro r hr p _
    simp only [inst0, Finset.mem_range, Nat.lt_one_iff] at hr
    subst hr
    by_cases hp0 : p = 0
    · simp [asg0, hp0]
    · dsimp only [asg0]
      simp only [hp0, false_and, if_false]
      split <;> norm_num
  · norm_num [asg0]
  · intro p _ g hg
    simp only [inst0, Finset.mem_range, Nat.lt_one_iff] at hg
    subst hg
    exact ⟨fun _ => rfl, fun hne => absurd rfl hne⟩

/-- **C2**: in every assignment satisfying the emitted constraint set,
exactly 5 players are selected, no stored team has more than 2 selected
players, and the total price of the selected players is at most 1,000,000. -/
theorem C2_roster_invariants (I : Instance) (a : Assignment) (h : feasible I a) :
    ((range I.numPlayers).filter fun p => a.X p = 1).card = 5
    ∧ (∀ t, ((range I.numPlayers).filter fun p => I.team p = t ∧ a.X p = 1).card ≤ 2)
    ∧ (∑ p in (range I.numPlayers).filter (fun p => a.X p = 1), I.Price p) ≤ 1000000 := by
  obtain ⟨⟨hX, -, -, -⟩, hteam, hbudget, hcount, -⟩ := h
  refine ⟨?_, ?_, ?_⟩
  · exact card_filter_eq_of_sum_eq _ _ 5 hX (by exact_mod_cast hcount)
  · intro t
    by_cases ht : t ∈ (range I.numPlayers).image I.team
    · have hX' : ∀ p ∈ (range I.numPlayers).filter (fun p => I.team p = t),
          a.X p = 0 ∨ a.X p = 1 :=
        fun p hp => hX p (Finset.mem_of_mem_filter p hp)
      have hc := card_filter_le_of_sum_le _ _ 2 hX' (by exact_mod_cast hteam t ht)
      rwa [Finset.filter_filter] at hc
    · have hempty : ((range I.numPlayers).filter fun p => I.team p = t ∧ a.X p = 1) = ∅ := by
        rw [Finset.filter_eq_empty_iff]
        intro p hp hc
        exact ht (Finset.mem_image.mpr ⟨p, hp, hc.1⟩)
      rw [hempty]
      simp
  · rw [← sum_mul_binary _ _ _ hX]
    exact hbudget

/-- Witness for C2 at the concrete feasible pair `inst0`, `asg0`. -/
theorem C2_witness :
    ((range inst0.numPlayers).filter fun p => asg0.X p = 1).card = 5
    ∧ (∀ t, ((range inst0.numPlayers).filter
        fun p => inst0.team p = t ∧ asg0.X p = 1).card ≤ 2)
    ∧ (∑ p in (range inst0.numPlayers).filter (fun p => asg0.X p = 1),
        inst0.Price p) ≤ 1000000 :=
  C2_roster_invariants inst0 asg0 feas0

/-- **C3**: the equality constraints of the model fix every SurvivalWeight:
in any feasible assignment, `W p g` equals `survivalValue I p g`, i.e. `1`
at game `0` and `WP[floor(p/5)]^(g+1)` for `g ≥ 1`. -/
theorem C3_survival_fixed (I : Instance) (a : Assignment) (h : feasible I a) :
    ∀ p ∈ range I.numPlayers, ∀ g ∈ range I.numGames,
      a.W p g = survivalValue I p g := by
  obtain ⟨-, -, -, -, -, -, -, -, -, -, -, -, hW⟩ := h
  intro p hp g hg
  obtain ⟨h0, h1⟩ := hW p hp g hg
  by_cases hg0 : g = 0
  · rw [survivalValue, if_pos hg0]
    exact h0 hg0
  · rw [survivalValue, if_neg hg0]
    exact h1 hg0

/-- Witness for C3 at the concrete feasible pair `inst0`, `asg0`:
player 0's SurvivalWeight at game 0 is pinned to `survivalValue`. -/
theorem C3_witness : asg0.W 0 0 = survivalValue inst0 0 0 :=
  C3_survival_fixed inst0 asg0 feas0 0 (by decide) 0 (by decide)

/-- **C4**: in every feasible assignment, a role or booster variable can be
`1` only for a selected player. -/
theorem C4_linking (I : Instance) (a : Assignment) (h : feasible I a) :
    ∀ p ∈ range I.numPlayers,
      (∀ r ∈ range I.numRoles, a.Y p r = 1 → a.X p = 1)
      ∧ (∀ b ∈ range I.numBoosters, ∀ g ∈ range I.numGames,
          a.Z p b g = 1 → a.X p = 1) := by
  obtain ⟨⟨hX, -, -, -⟩, -, -, -, -, -, -, -, -, hZX, hYX, -, -⟩ := h
  intro p hp
  constructor
  · intro r hr hY1
    rcases hX p hp with h0 | h1
    · exfalso
      have hle := hYX r hr p hp
      rw [hY1, h0] at hle
      norm_num at hle
    · exact h1
  · intro b hb g hg hZ1
    rcases hX p hp with h0 | h1
    · exfalso
      have hle := hZX g hg b hb p hp
      rw [hZ1, h0] at hle
      norm_num at hle
    · exact h1

/-- Witness for C4 at the concrete feasible pair `inst0`, `asg0`:
player 0 holds role 0, and the linking theorem forces player 0 to be
selected. -/
theorem C4_witness : asg0.X 0 = 1 :=
  (C4_linking inst0 asg0 feas0 0 (by decide)).1 0 (by decide)
    (by norm_num [asg0])

/-- **C5**: in every feasible assignment, each role goes to at most one
player, each player holds at most one role, each booster is used by at most
one (player, game) pair in total and at most one player per game, and each
player uses at most one booster per game. -/
theorem C5_scarcity (I : Instance) (a : Assignment) (h : feasible I a) :
    (∀ r ∈ range I.numRoles,
      ((range I.numPlayers).filter fun p => a.Y p r = 1).card ≤ 1)
    ∧ (∀ p ∈ range I.numPlayers,
      ((range I.numRoles).filter fun r => a.Y p r = 1).card ≤ 1)
    ∧ (∀ b ∈ range I.numBoosters,
      (((range I.numPlayers) ×ˢ (range I.numGames)).filter
        fun q => a.Z q.1 b q.2 = 1).card ≤ 1)
    ∧ (∀ b ∈ range I.numBoosters, ∀ g ∈ range I.numGames,
      ((range I.numPlayers).filter fun p => a.Z p b g = 1).card ≤ 1)
    ∧ (∀ p ∈ range I.numPlayers, ∀ g ∈ range I.numGames,
      ((range I.numBoosters).filter fun b => a.Z p b g = 1).card ≤ 1) := by
  obtain ⟨⟨-, hY, hZ, -⟩, -, -, -, hb1, hb2, hb3, hr1, hr2, -⟩ := h
  refine ⟨?_, ?_, ?_, ?_, ?_⟩
  · intro r hr
    exact card_filter_le_of_sum_le _ _ 1 (fun p hp => hY p hp r hr)
      (by exact_mod_cast hr1 r hr)
  · intro p hp
    exact card_filter_le_of_sum_le _ _ 1 (fun r hr => hY p hp r hr)
      (by exact_mod_cast hr2 p hp)
  · intro b hb
    refine card_filter_le_of_sum_le _ _ 1 ?_ ?_
    · intro q hq
      obtain ⟨hq1, hq2⟩ := Finset.mem_product.mp hq
      exact hZ q.1 hq1 b hb q.2 hq2
    · rw [Finset.sum_product]
      exact_mod_cast hb1 b hb
  · intro b hb g hg
    exact card_filter_le_of_sum_le _ _ 1 (fun p hp => hZ p hp b hb g hg)
      (by exact_mod_cast hb2 b hb g hg)
  · intro p hp g hg
    exact card_filter_le_of_sum_le _ _ 1 (fun b hb => hZ p hp b hb g hg)
      (by exact_mod_cast hb3 p hp g hg)

/-- Witness for C5 at the concrete feasible pair `inst0`, `asg0`. -/
theorem C5_witness :
    (∀ r ∈ range inst0.numRoles,
      ((range inst0.numPlayers).filter fun p => asg0.Y p r = 1).card ≤ 1)
    ∧ (∀ p ∈ range inst0.numPlayers,
      ((range inst0.numRoles).filter fun r => asg0.Y p r = 1).card ≤ 1)
    ∧ (∀ b ∈ range inst0.numBoosters,
      (((range inst0.numPlayers) ×ˢ (range inst0.numGames)).filter
        fun q => asg0.Z q.1 b q.2 = 1).card ≤ 1)
    ∧ (∀ b ∈ range inst0.numBoosters, ∀ g ∈ range inst0.numGames,
      ((range inst0.numPlayers).filter fun p => asg0.Z p b g = 1).card ≤ 1)
    ∧ (∀ p ∈ range inst0.numPlayers, ∀ g ∈ range inst0.numGames,
      ((range inst0.numBoosters).filter fun b => asg0.Z p b g = 1).card ≤ 1) :=
  C5_scarcity inst0 asg0 feas0

/-- **C6**: the hard-coded disqualification constraint `X[27] == 0` keeps the
disqualified player (index 27, "Sonic") out of every feasible solution, no
matter the input tables — in particular also when selecting that player
would improve the objective. -/
theorem C6_disqualified_never_selected (I : Instance) (a : Assignment)
    (h : feasible I a) : a.X 27 ≠ 1 := by
  obtain ⟨-, -, -, -, -, -, -, -, -, -, -, h27, -⟩ := h
  rw [h27]
  norm_num

/-- Witness for C6 at the concrete feasible pair `inst0`, `asg0`. -/
theorem C6_witness : asg0.X 27 ≠ 1 :=
  C6_disqualified_never_selected inst0 asg0 feas0


/-- **C9**: once the SurvivalWeight equalities hold, the bilinear objective
agrees with the linear expression obtained by substituting each `W p g`
with its constant value `survivalValue I p g`. -/
theorem C9_objective_linearizes (I : Instance) (a : Assignment)
    (h : ∀ p ∈ range I.numPlayers, ∀ g ∈ range I.numGames,
      a.W p g = survivalValue I p g) :
    objective I a = linearObjective I a := by
  unfold objective linearObjective
  have e1 : ∑ p in range I.numPlayers, ∑ g in range I.numGames,
      a.X p * a.W p g * (((R1W * I.Rating0 p) + (RAT * I.Rating1 p)) - 1) * 50
      = ∑ p in range I.numPlayers, ∑ g in range I.numGames,
      a.X p * survivalValue I p g * (((R1W * I.Rating0 p) + (RAT * I.Rating1 p)) - 1) * 50 :=
    Finset.sum_congr rfl fun p hp => Finset.sum_congr rfl fun g hg => by
      rw [h p hp g hg]
  have e2 : ∑ p in range I.numPlayers, ∑ g in range I.numGames, ∑ b in range I.numBoosters,
      a.Z p b g * a.W p g * I.BoosterProb p b * 5
      = ∑ p in range I.numPlayers, ∑ g in range I.numGames, ∑ b in range I.numBoosters,
      a.Z p b g * survivalValue I p g * I.BoosterProb p b * 5 :=
    Finset.sum_congr rfl fun p hp => Finset.sum_congr rfl fun g hg =>
      Finset.sum_congr rfl fun b _ => by rw [h p hp g hg]
  have e3 : ∑ p in range I.numPlayers, ∑ r in range I.numRoles, ∑ g in range I.numGames,
      a.Y p r * a.W p g * I.RoleSmall p r * 2
      = ∑ p in range I.numPlayers, ∑ r in range I.numRoles, ∑ g in range I.numGames,
      a.Y p r * survivalValue I p g * I.RoleSmall p r * 2 :=
    Finset.sum_congr rfl fun p hp => Finset.sum_congr rfl fun r _ =>
      Finset.sum_congr rfl fun g hg => by rw [h p hp g hg]
  have e4 : ∑ p in range I.numPlayers, ∑ r in range I.numRoles, ∑ g in range I.numGames,
      a.Y p r * a.W p g * I.RoleBig p r * 5
      = ∑ p in range I.numPlayers, ∑ r in range I.numRoles, ∑ g in range I.numGames,
      a.Y p r * survivalValue I p g * I.RoleBig p r * 5 :=
    Finset.sum_congr rfl fun p hp => Finset.sum_congr rfl fun r _ =>
      Finset.sum_congr rfl fun g hg => by rw [h p hp g hg]
  have e5 : ∑ p in range I.numPlayers, ∑ r in range I.numRoles, ∑ g in range I.numGames,
      a.Y p r * a.W p g * (1 - I.RoleSmall p r - I.RoleBig p r) * 2
      = ∑ p in range I.numPlayers, ∑ r in range I.numRoles, ∑ g in range I.numGames,
      a.Y p r * survivalValue I p g * (1 - I.RoleSmall p r - I.RoleBig p r) * 2 :=
    Finset.sum_congr rfl fun p hp => Finset.sum_congr rfl fun r _ =>
      Finset.sum_congr rfl fun g hg => by rw [h p hp g hg]
  have e6 : ∑ p in range I.numPlayers, ∑ g in range I.numGames,
      a.X p * a.W p g * wpAt I p * 6
      = ∑ p in range I.numPlayers, ∑ g in range I.numGames,
      a.X p * survivalValue I p g * wpAt I p * 6 :=
    Finset.sum_congr rfl fun p hp => Finset.sum_congr rfl fun g hg => by
      rw [h p hp g hg]
  have e7 : ∑ p in range I.numPlayers, ∑ g in range I.numGames,
      a.X p * a.W p g * (1 - wpAt I p) * 3
      = ∑ p in range I.numPlayers, ∑ g in range I.numGames,
      a.X p * survivalValue I p g * (1 - wpAt I p) * 3 :=
    Finset.sum_congr rfl fun p hp => Finset.sum_congr rfl fun g hg => by
      rw [h p hp g hg]
  rw [e1, e2, e3, e4, e5, e6, e7]

/-- Witness for C9 at the concrete pair `inst0`, `asg0` (whose `W` is `1`
everywhere and whose only game is game 0). -/
theorem C9_witness : objective inst0 asg0 = linearObjective inst0 asg0 :=
  C9_objective_linearizes inst0 asg0 (by
    intro p _ g hg
    simp only [inst0, Finset.mem_range, Nat.lt_one_iff] at hg
    subst hg
    simp [asg0, survivalValue])


/-- **C1, counterexample**: the objective is not a degree-at-most-one
function of the decision variables.  Any affine function `f` satisfies
`f (u + v) = f u + f v - f 0`; the objective violates this on the concrete
instance `instLin` at `u = v = asgLin` (its value there is `63/2·X·W`, a
genuine product of two decision variables). -/
theorem C1_counterexample :
    objective instLin (addA asgLin asgLin)
      ≠ objective instLin asgLin + objective instLin asgLin
        - objective instLin zeroA := by
  norm_num [objective, addA, zeroA, asgLin, instLin, wpAt, RAT, R1W,
    Finset.sum_range_one]

/-- **C1, amended**: the objective is bilinear, hence linear in the binary
variables `X`, `Y`, `Z` once the SurvivalWeight slice `W` is held fixed:
for assignments sharing one `W`, it maps a linear combination of the
`X`/`Y`/`Z` components to the same linear combination of values. -/
theorem C1_linear_in_XYZ_for_fixed_W (I : Instance) (a b : Assignment)
    (c : ℚ) (hW : b.W = a.W) :
    objective I (comboXYZ c a b) = c * objective I a + objective I b := by
  unfold objective comboXYZ
  rw [hW]
  dsimp only
  have g1 : ∀ p g : ℕ,
      (c * a.X p + b.X p) * a.W p g * (((R1W * I.Rating0 p) + (RAT * I.Rating1 p)) - 1) * 50
      = c * (a.X p * a.W p g * (((R1W * I.Rating0 p) + (RAT * I.Rating1 p)) - 1) * 50)
        + b.X p * a.W p g * (((R1W * I.Rating0 p) + (RAT * I.Rating1 p)) - 1) * 50 :=
    fun p g => by ring
  have g2 : ∀ p q g : ℕ,
      (c * a.Z p q g + b.Z p q g) * a.W p g * I.BoosterProb p q * 5
      = c * (a.Z p q g * a.W p g * I.BoosterProb p q * 5)
        + b.Z p q g * a.W p g * I.BoosterProb p q * 5 :=
    fun p q g => by ring
  have g3 : ∀ p r g : ℕ,
      (c * a.Y p r + b.Y p r) * a.W p g * I.RoleSmall p r * 2
      = c * (a.Y p r * a.W p g * I.RoleSmall p r * 2)
        + b.Y p r * a.W p g * I.RoleSmall p r * 2 :=
    fun p r g => by ring
  have g4 : ∀ p r g : ℕ,
      (c * a.Y p r + b.Y p r) * a.W p g * I.RoleBig p r * 5
      = c * (a.Y p r * a.W p g * I.RoleBig p r * 5)
        + b.Y p r * a.W p g * I.RoleBig p r * 5 :=
    fun p r g => by ring
  have g5 : ∀ p r g : ℕ,
      (c * a.Y p r + b.Y p r) * a.W p g * (1 - I.RoleSmall p r - I.RoleBig p r) * 2
      = c * (a.Y p r * a.W p g * (1 - I.RoleSmall p r - I.RoleBig p r) * 2)
        + b.Y p r * a.W p g * (1 - I.RoleSmall p r - I.RoleBig p r) * 2 :=
    fun p r g => by ring
  have g6 : ∀ p g : ℕ,
      (c * a.X p + b.X p) * a.W p g * wpAt I p * 6
      = c * (a.X p * a.W p g * wpAt I p * 6) + b.X p * a.W p g * wpAt I p * 6 :=
    fun p g => by ring
  have g7 : ∀ p g : ℕ,
      (c * a.X p + b.X p) * a.W p g * (1 - wpAt I p) * 3
      = c * (a.X p * a.W p g * (1 - wpAt I p) * 3)
        + b.X p * a.W p g * (1 - wpAt I p) * 3 :=
    fun p g => by ring
  simp only [g1, g2, g3, g4, g5, g6, g7, Finset.sum_add_distrib, ← Finset.mul_sum]
  ring

/-- Witness for the amended C1 at the concrete input `instLin` with
`a = b = asgLin` and `c = 2`; the shared-`W` hypothesis holds by
reflexivity. -/
theorem C1_witness :
    objective instLin (comboXYZ 2 asgLin asgLin)
      = 2 * objective instLin asgLin + objective instLin asgLin :=
  C1_linear_in_XYZ_for_fixed_W instLin asgLin asgLin 2 rfl


/-- **C7, counterexample**: the win probability the code uses for player 0
of `instMix` is `WP[0 / 5] = WP[0] = 1/2`, but player 0's stored team field
is `1`, whose win probability is `WP[1] = 3/4`.  The probability used in
the objective and the SurvivalWeight equalities is therefore not the one of
the player's own team. -/
theorem C7_counterexample : wpAt instMix 0 ≠ storedTeamWP instMix 0 := by
  norm_num [wpAt, storedTeamWP, instMix]

/-- **C7, amended**: the win probability used in the objective and the
SurvivalWeight equalities is `WP[floor(p/5)]`; it coincides with the win
probability of the player's stored team exactly on tables whose team field
follows the positional convention `team p = floor(p/5)` (players listed in
blocks of five per team). -/
theorem C7_positional_team_probability (I : Instance)
    (h : ∀ p < I.numPlayers, I.team p = p / 5) :
    ∀ p < I.numPlayers, wpAt I p = storedTeamWP I p := by
  intro p hp
  rw [wpAt, storedTeamWP, h p hp]

/-- Witness for the amended C7: `inst0` stores `team p = p / 5`, and there
the probability used for player 7 agrees with its stored team's. -/
theorem C7_witness : wpAt inst0 7 = storedTeamWP inst0 7 :=
  C7_positional_team_probability inst0 (fun _ _ => rfl) 7 (by decide)

/-- **C8, counterexample**: on `instSmall` — 5 players on 5 distinct teams
with ample budget, a perfectly sensible table set — model building fails:
line 158 of `main.py` evaluates `X[27]`, and the variable dictionary built
from `range(len(Players))` has no key `27`. -/
theorem C8_counterexample : build instSmall = none := by
  rw [build, if_neg]
  rintro ⟨-, h27⟩
  norm_num [instSmall] at h27

/-- **C8, amended**: model building succeeds exactly on tables that dodge
the two hard-coded lookups: at least 28 players (so that `X[27]` exists)
and a `WP` table covering `floor(p/5)` for every player (so that
`WP[math.floor(p / 5)]` is in range); on such tables it returns the
objective and constraint set unconditionally, and infeasibility can then
only arise at solve time. -/
theorem C8_build_succeeds (I : Instance) (h27 : 27 < I.numPlayers)
    (hWP : ∀ p ∈ range I.numPlayers, p / 5 < I.WP.length) :
    build I = some ⟨objective I, feasible I⟩ := by
  rw [build, if_pos ⟨hWP, h27⟩]

/-- Witness for the amended C8: building succeeds on the 30-player,
6-team table set `inst0`. -/
theorem C8_witness : build inst0 = some ⟨objective inst0, feasible inst0⟩ :=
  C8_build_succeeds inst0 (by norm_num [inst0]) (by decide)

/-- **C10**: in every feasible assignment, a selected player holding a role
but with no booster active in game `g` produces the "no booster" line
exactly once in game `g`'s block of the report. -/
theorem C10_no_booster_reported_once (I : Instance) (a : Assignment)
    (h : feasible I a) (p g : ℕ)
    (hp : p ∈ range I.numPlayers) (hg : g ∈ range I.numGames)
    (hsel : a.X p = 1)
    (hrole : ∃ r ∈ range I.numRoles, a.Y p r = 1)
    (hnob : ∀ b ∈ range I.numBoosters, a.Z p b g ≠ 1) :
    noBoosterLines I a g p = 1 := by
  obtain ⟨⟨-, hY, hZ, -⟩, -, -, -, -, -, -, -, hr2, -⟩ := h
  have hZ0 : ∑ b in range I.numBoosters, a.Z p b g = 0 := by
    refine Finset.sum_eq_zero fun b hb => ?_
    rcases hZ p hp b hb g hg with h0 | h1
    · exact h0
    · exact absurd h1 (hnob b hb)
  rw [noBoosterLines, if_pos hsel]
  simp only [hZ0, and_true]
  rw [← Finset.card_filter]
  have hle : ((range I.numRoles).filter fun r => a.Y p r = 1).card ≤ 1 :=
    card_filter_le_of_sum_le _ _ 1 (fun r hr => hY p hp r hr)
      (by exact_mod_cast hr2 p hp)
  have hpos : 0 < ((range I.numRoles).filter fun r => a.Y p r = 1).card := by
    obtain ⟨r, hr, hr1⟩ := hrole
    exact Finset.card_pos.mpr ⟨r, Finset.mem_filter.mpr ⟨hr, hr1⟩⟩
  exact le_antisymm hle hpos

/-- Witness for C10: in `inst0`/`asg0`, player 0 is selected with role 0
and no booster in game 0, and is reported with "no booster" exactly once. -/
theorem C10_witness : noBoosterLines inst0 asg0 0 0 = 1 :=
  C10_no_booster_reported_once inst0 asg0 feas0 0 0
    (by decide) (by decide)
    (by norm_num [asg0])
    ⟨0, by decide, by norm_num [asg0]⟩
    (by intro b _; norm_num [asg0])


end HLTV
